import Mathlib

/-!
Verification development for the battleoids arcade-game core.

The TypeScript source is embedded shallowly: numeric values are modelled as
real numbers, class instances as Lean structures, and mutating methods as
pure state-transition functions.  Every call to the runtime random generator
(`Math.random()`, wrapped by `randomRange`) is made explicit as a real-valued
parameter, so all definitions are deterministic functions of their inputs.
-/

namespace Battleoids

/-- Claim vector type, `src/core/types.ts` interface `Vector2`. -/
structure Vec2 where
  x : ℝ
  y : ℝ

/-- Transform record, `src/core/types.ts` interface `Transform`. -/
structure Transform where
  position : Vec2
  rotation : ℝ
  scale : ℝ

/-- Vector addition, `src/physics/math.ts` `add`. -/
noncomputable def add (a b : Vec2) : Vec2 := ⟨a.x + b.x, a.y + b.y⟩

/-- Vector subtraction, `src/physics/math.ts` `subtract`. -/
noncomputable def subtract (a b : Vec2) : Vec2 := ⟨a.x - b.x, a.y - b.y⟩

/-- Scalar multiple, `src/physics/math.ts` `scale`. -/
noncomputable def scale (v : Vec2) (scalar : ℝ) : Vec2 := ⟨v.x * scalar, v.y * scalar⟩

/-- Euclidean norm, `src/physics/math.ts` `magnitude`. -/
noncomputable def magnitude (v : Vec2) : ℝ := Real.sqrt (v.x * v.x + v.y * v.y)

/-- Euclidean distance of two points, `src/physics/math.ts` `distance`. -/
noncomputable def distance (a b : Vec2) : ℝ :=
  Real.sqrt ((b.x - a.x) * (b.x - a.x) + (b.y - a.y) * (b.y - a.y))

/-- `src/physics/math.ts` `randomRange`; the `Math.random()` draw is the
explicit parameter `r` (a value in `[0, 1)`). -/
noncomputable def randomRange (lo hi r : ℝ) : ℝ := lo + r * (hi - lo)

/-- Configuration constant, `src/core/config.ts` `CONFIG.gravityWell.pullRadius`. -/
noncomputable def CONFIG.gravityWell.pullRadius : ℝ := 300

/-- Configuration constant, `src/core/config.ts` `CONFIG.gravityWell.visualRadius`. -/
noncomputable def CONFIG.gravityWell.visualRadius : ℝ := 30

/-- Configuration constant, `src/core/config.ts` `CONFIG.gravityWell.pullStrength.min`. -/
noncomputable def CONFIG.gravityWell.pullStrengthMin : ℝ := 150

/-- Configuration constant, `src/core/config.ts` `CONFIG.gravityWell.pullStrength.max`. -/
noncomputable def CONFIG.gravityWell.pullStrengthMax : ℝ := 500

/-- Configuration constant, `src/core/config.ts` `CONFIG.gravityWell.spawnMargin`. -/
noncomputable def CONFIG.gravityWell.spawnMargin : ℝ := 100

/-- Configuration constant, `src/core/config.ts`
`CONFIG.gravityWell.spawnMinDistanceFromShip`. -/
noncomputable def CONFIG.gravityWell.spawnMinDistanceFromShip : ℝ := 150

/-!
Gravity well, from `src/entities/gravityWell.ts` (the revision with the
constant-magnitude pull, the one the design notes call authoritative).
The class fields `pullRadius` and `visualRadius` are `readonly` initialisers
from `CONFIG`, so they are modelled as constant functions of the instance;
`pullStrength` is a constructor argument.
-/

/-- Gravity well state: constructor arguments `(x, y, duration, pullStrength)`
of class `GravityWell`; the position is stored in the inherited transform. -/
structure GravityWell where
  position : Vec2
  lifetime : ℝ
  pullStrength : ℝ

/-- The `readonly pullRadius = CONFIG.gravityWell.pullRadius` field. -/
noncomputable def GravityWell.pullRadius (_ : GravityWell) : ℝ :=
  CONFIG.gravityWell.pullRadius

/-- `GravityWell.getDistance`: distance from the field center to a point. -/
noncomputable def GravityWell.getDistance (w : GravityWell) (targetPos : Vec2) : ℝ :=
  Real.sqrt ((w.position.x - targetPos.x) * (w.position.x - targetPos.x) +
    (w.position.y - targetPos.y) * (w.position.y - targetPos.y))

/-- `GravityWell.getPullForce`.  The method inlines `dx`, `dy` and
`distance = sqrt(dx*dx + dy*dy)`; that inline distance is exactly
`getDistance targetPos`, which we use to name it. -/
noncomputable def GravityWell.getPullForce (w : GravityWell) (targetPos : Vec2) : Vec2 :=
  if w.getDistance targetPos > w.pullRadius ∨ w.getDistance targetPos < 1 then
    ⟨0, 0⟩
  else
    ⟨(w.position.x - targetPos.x) / w.getDistance targetPos * w.pullStrength,
     (w.position.y - targetPos.y) / w.getDistance targetPos * w.pullStrength⟩

/-- Claim C1: `getPullForce` returns the zero vector for a query point at
distance greater than `pullRadius` or less than `1` from the well center;
for a point strictly inside that annulus the returned vector has magnitude
exactly `pullStrength` (constant, not distance-scaled) and is a nonnegative
scalar multiple of the vector from the query point toward the well center. -/
theorem claim1_getPullForce_spec (w : GravityWell) (p : Vec2)
    (hs : 0 ≤ w.pullStrength) :
    (w.getDistance p > w.pullRadius ∨ w.getDistance p < 1 →
      w.getPullForce p = ⟨0, 0⟩) ∧
    (1 < w.getDistance p → w.getDistance p < w.pullRadius →
      magnitude (w.getPullForce p) = w.pullStrength ∧
      0 ≤ w.pullStrength / w.getDistance p ∧
      w.getPullForce p =
        scale (subtract w.position p) (w.pullStrength / w.getDistance p)) := by
  constructor
  · intro h
    rw [GravityWell.getPullForce, if_pos h]
  · intro h1 h2
    have hd0 : (0 : ℝ) < w.getDistance p := lt_trans one_pos h1
    have hdne : w.getDistance p ≠ 0 := ne_of_gt hd0
    have hcond : ¬(w.getDistance p > w.pullRadius ∨ w.getDistance p < 1) := by
      push_neg
      exact ⟨le_of_lt h2, le_of_lt h1⟩
    have hmul : w.getDistance p * w.getDistance p =
        (w.position.x - p.x) * (w.position.x - p.x) +
        (w.position.y - p.y) * (w.position.y - p.y) := by
      rw [GravityWell.getDistance]
      exact Real.mul_self_sqrt (add_nonneg (mul_self_nonneg _) (mul_self_nonneg _))
    refine ⟨?_, div_nonneg hs (le_of_lt hd0), ?_⟩
    · rw [GravityWell.getPullForce, if_neg hcond, magnitude]
      have hsum :
          (w.position.x - p.x) / w.getDistance p * w.pullStrength *
            ((w.position.x - p.x) / w.getDistance p * w.pullStrength) +
          (w.position.y - p.y) / w.getDistance p * w.pullStrength *
            ((w.position.y - p.y) / w.getDistance p * w.pullStrength) =
          w.pullStrength * w.pullStrength := by
        field_simp
        nlinarith [hmul]
      rw [hsum]
      exact Real.sqrt_mul_self hs
    · rw [GravityWell.getPullForce, if_neg hcond, subtract, scale]
      have hx : (w.position.x - p.x) / w.getDistance p * w.pullStrength =
          (w.position.x - p.x) * (w.pullStrength / w.getDistance p) := by ring
      have hy : (w.position.y - p.y) / w.getDistance p * w.pullStrength =
          (w.position.y - p.y) * (w.pullStrength / w.getDistance p) := by ring
      rw [hx, hy]

/-- Sample gravity well used by concrete witnesses: centered at the origin,
default duration 8, pull strength `CONFIG.gravityWell.pullStrength.min`. -/
noncomputable def demoWell : GravityWell := ⟨⟨0, 0⟩, 8, 150⟩

/-- Witness for claim C1 at concrete inputs: the point `(3, 4)` is at
distance 5 inside the annulus and feels a force of magnitude 150; the point
`(0, 400)` is beyond the 300 pull radius and feels the zero vector. -/
theorem claim1_witness :
    magnitude (demoWell.getPullForce ⟨3, 4⟩) = 150 ∧
    demoWell.getPullForce ⟨0, 400⟩ = ⟨0, 0⟩ := by
  have hs : (0 : ℝ) ≤ demoWell.pullStrength := by
    simp only [demoWell]
    norm_num
  have h5 : demoWell.getDistance ⟨3, 4⟩ = 5 := by
    rw [GravityWell.getDistance]
    simp only [demoWell]
    rw [show ((0 : ℝ) - 3) * ((0 : ℝ) - 3) + ((0 : ℝ) - 4) * ((0 : ℝ) - 4) =
      5 ^ 2 by norm_num]
    exact Real.sqrt_sq (by norm_num)
  have h400 : demoWell.getDistance ⟨0, 400⟩ = 400 := by
    rw [GravityWell.getDistance]
    simp only [demoWell]
    rw [show ((0 : ℝ) - 0) * ((0 : ℝ) - 0) + ((0 : ℝ) - 400) * ((0 : ℝ) - 400) =
      400 ^ 2 by norm_num]
    exact Real.sqrt_sq (by norm_num)
  constructor
  · have h := (claim1_getPullForce_spec demoWell ⟨3, 4⟩ hs).2
      (by rw [h5]; norm_num)
      (by rw [h5, GravityWell.pullRadius, CONFIG.gravityWell.pullRadius]; norm_num)
    rw [h.1]
    simp only [demoWell]
  · exact (claim1_getPullForce_spec demoWell ⟨0, 400⟩ hs).1
      (Or.inl (by rw [h400, GravityWell.pullRadius, CONFIG.gravityWell.pullRadius]; norm_num))

/-!
Player ship, from `src/entities/ship.ts`.
-/

/-- Ship constant, `src/entities/ship.ts` `HYPERSPACE_SHRINK_TIME`. -/
noncomputable def HYPERSPACE_SHRINK_TIME : ℝ := 0.3

/-- Ship constant, `src/entities/ship.ts` `HYPERSPACE_WARP_TIME`. -/
noncomputable def HYPERSPACE_WARP_TIME : ℝ := 0.2

/-- Ship constant, `src/entities/ship.ts` `HYPERSPACE_EXPAND_TIME`. -/
noncomputable def HYPERSPACE_EXPAND_TIME : ℝ := 0.3

/-- Ship constant, `src/entities/ship.ts` `HYPERSPACE_COOLDOWN`. -/
noncomputable def HYPERSPACE_COOLDOWN : ℝ := 5

/-- Ship constant, `src/entities/ship.ts` `HYPERSPACE_INVULNERABILITY`. -/
noncomputable def HYPERSPACE_INVULNERABILITY : ℝ := 2

/-- The four hyperspace phases, `src/entities/ship.ts` type `HyperspaceState`. -/
inductive HyperspaceState
  | idle
  | shrinking
  | warping
  | expanding
deriving DecidableEq

/-- Ship state, class `Ship` of `src/entities/ship.ts`.  The constant `shape`
field is modelled separately as `SHIP_SHAPE`. -/
structure Ship where
  transform : Transform
  velocity : Vec2
  angularVelocity : ℝ
  radius : ℝ
  isActive : Bool
  isThrusting : Bool
  invulnerableTime : ℝ
  hyperspaceState : HyperspaceState
  hyperspaceTimer : ℝ
  hyperspaceCooldown : ℝ
  hyperspaceTargetPosition : Vec2

/-- The constant `SHIP_SHAPE` polygon of `src/entities/ship.ts`. -/
noncomputable def SHIP_SHAPE : List Vec2 :=
  [⟨0, -15⟩, ⟨10, 12⟩, ⟨0, 6⟩, ⟨-10, 12⟩]

/-- `Ship.isInvulnerable`. -/
def Ship.isInvulnerable (s : Ship) : Prop := s.invulnerableTime > 0

noncomputable instance (s : Ship) : Decidable s.isInvulnerable := by
  unfold Ship.isInvulnerable; infer_instance

/-- `Ship.isInHyperspace`. -/
def Ship.isInHyperspace (s : Ship) : Prop := s.hyperspaceState ≠ HyperspaceState.idle

instance (s : Ship) : Decidable s.isInHyperspace := by
  unfold Ship.isInHyperspace; infer_instance

/-- `Ship.canHyperspace`. -/
def Ship.canHyperspace (s : Ship) : Prop :=
  s.hyperspaceState = HyperspaceState.idle ∧ s.hyperspaceCooldown ≤ 0

noncomputable instance (s : Ship) : Decidable s.canHyperspace := by
  unfold Ship.canHyperspace; infer_instance

/-- `Ship.update(dt)`.  The source method mutates the object in four
sequential blocks — hyperspace phase switch, cooldown countdown, position
integration (skipped while warping, checked on the post-switch state), and
invulnerability countdown — modelled here as four sequential state rebinds. -/
noncomputable def Ship.update (s : Ship) (dt : ℝ) : Ship :=
  let s1 :=
    if s.hyperspaceState ≠ HyperspaceState.idle then
      let t := s.hyperspaceTimer + dt
      match s.hyperspaceState with
      | HyperspaceState.shrinking =>
          if t ≥ HYPERSPACE_SHRINK_TIME then
            { s with hyperspaceState := HyperspaceState.warping, hyperspaceTimer := 0 }
          else { s with hyperspaceTimer := t }
      | HyperspaceState.warping =>
          if t ≥ HYPERSPACE_WARP_TIME then
            { s with
                transform := { s.transform with position := s.hyperspaceTargetPosition },
                velocity := ⟨0, 0⟩,
                hyperspaceState := HyperspaceState.expanding,
                hyperspaceTimer := 0 }
          else { s with hyperspaceTimer := t }
      | HyperspaceState.expanding =>
          if t ≥ HYPERSPACE_EXPAND_TIME then
            { s with
                hyperspaceState := HyperspaceState.idle,
                hyperspaceTimer := 0,
                hyperspaceCooldown := HYPERSPACE_COOLDOWN }
          else { s with hyperspaceTimer := t }
      | HyperspaceState.idle => s
    else s
  let s2 :=
    if s1.hyperspaceCooldown > 0 then
      { s1 with hyperspaceCooldown := s1.hyperspaceCooldown - dt }
    else s1
  let s3 :=
    if s2.hyperspaceState ≠ HyperspaceState.warping then
      { s2 with
          transform := { s2.transform with
            position := add s2.transform.position (scale s2.velocity dt) } }
    else s2
  if s3.invulnerableTime > 0 then
    { s3 with invulnerableTime := s3.invulnerableTime - dt }
  else s3

/-- `Ship.activateHyperspace(targetX, targetY)`: guarded by `canHyperspace`,
otherwise starts shrinking, records the target and extends invulnerability. -/
noncomputable def Ship.activateHyperspace (s : Ship) (targetX targetY : ℝ) : Ship :=
  if s.canHyperspace then
    { s with
        hyperspaceState := HyperspaceState.shrinking,
        hyperspaceTimer := 0,
        hyperspaceTargetPosition := ⟨targetX, targetY⟩,
        invulnerableTime := max s.invulnerableTime
          (HYPERSPACE_SHRINK_TIME + HYPERSPACE_WARP_TIME +
            HYPERSPACE_EXPAND_TIME + HYPERSPACE_INVULNERABILITY) }
  else s

/-- Claim C4: with `hyperspaceState ≠ idle` or `hyperspaceCooldown > 0`,
`activateHyperspace` is a silent no-op: the whole ship state (in particular
`hyperspaceState`, `hyperspaceTimer`, `hyperspaceTargetPosition` and
`invulnerableTime`) is unchanged and no error is raised (the function is
total). -/
theorem claim4_activateHyperspace_noop (s : Ship) (tx ty : ℝ)
    (h : s.hyperspaceState ≠ HyperspaceState.idle ∨ 0 < s.hyperspaceCooldown) :
    s.activateHyperspace tx ty = s := by
  have hb : ¬s.canHyperspace := by
    rw [Ship.canHyperspace]
    rcases h with h | h
    · exact fun hc => h hc.1
    · exact fun hc => absurd hc.2 (not_le.mpr h)
  rw [Ship.activateHyperspace, if_neg hb]

/-- Concrete ship still on hyperspace cooldown, used by the claim C4 witness. -/
noncomputable def demoShipCooling : Ship :=
  ⟨⟨⟨400, 300⟩, 0, 1⟩, ⟨0, 0⟩, 0, 12, true, false, 0,
    HyperspaceState.idle, 0, 2, ⟨0, 0⟩⟩

/-- Witness for claim C4: a ship with 2 seconds of cooldown left ignores an
`activateHyperspace` request. -/
theorem claim4_witness : demoShipCooling.activateHyperspace 100 200 = demoShipCooling :=
  claim4_activateHyperspace_noop demoShipCooling 100 200
    (Or.inr (by rw [demoShipCooling]; norm_num))

/-- Core computation for the hyperspace full cycle: from an idle ship with
non-positive cooldown, `activateHyperspace` followed by three `update` calls
of exactly the three phase durations ends idle at the target with zero
velocity, and with the cooldown already reduced by the final `dt` (the
cooldown countdown block runs after the phase switch in the same call). -/
lemma update_shrink_step (s : Ship) (dt : ℝ)
    (h1 : s.hyperspaceState = HyperspaceState.shrinking)
    (h2 : s.hyperspaceTimer + dt ≥ HYPERSPACE_SHRINK_TIME)
    (h3 : ¬s.hyperspaceCooldown > 0)
    (h4 : s.invulnerableTime > 0) :
    s.update dt = { s with
      hyperspaceState := HyperspaceState.warping,
      hyperspaceTimer := 0,
      invulnerableTime := s.invulnerableTime - dt } := by
  simp [Ship.update, h1, h2, h3, h4]

lemma update_warp_step (s : Ship) (dt : ℝ)
    (h1 : s.hyperspaceState = HyperspaceState.warping)
    (h2 : s.hyperspaceTimer + dt ≥ HYPERSPACE_WARP_TIME)
    (h3 : ¬s.hyperspaceCooldown > 0)
    (h4 : s.invulnerableTime > 0) :
    s.update dt = { s with
      transform := { s.transform with position := s.hyperspaceTargetPosition },
      velocity := ⟨0, 0⟩,
      hyperspaceState := HyperspaceState.expanding,
      hyperspaceTimer := 0,
      invulnerableTime := s.invulnerableTime - dt } := by
  simp [Ship.update, h1, h2, h3, h4, add, scale]

lemma update_expand_step (s : Ship) (dt : ℝ)
    (h1 : s.hyperspaceState = HyperspaceState.expanding)
    (h2 : s.hyperspaceTimer + dt ≥ HYPERSPACE_EXPAND_TIME)
    (h4 : s.invulnerableTime > 0) :
    s.update dt = { s with
      transform := { s.transform with
        position := add s.transform.position (scale s.velocity dt) },
      hyperspaceState := HyperspaceState.idle,
      hyperspaceTimer := 0,
      hyperspaceCooldown := HYPERSPACE_COOLDOWN - dt,
      invulnerableTime := s.invulnerableTime - dt } := by
  have h5 : (0 : ℝ) < HYPERSPACE_COOLDOWN := by norm_num [HYPERSPACE_COOLDOWN]
  simp [Ship.update, h1, h2, h4, h5]

lemma hyperspace_cycle_aux (s : Ship) (tx ty : ℝ)
    (hidle : s.hyperspaceState = HyperspaceState.idle)
    (hcool : s.hyperspaceCooldown ≤ 0) :
    (((s.activateHyperspace tx ty).update HYPERSPACE_SHRINK_TIME).update
        HYPERSPACE_WARP_TIME).update HYPERSPACE_EXPAND_TIME =
      ⟨{ s.transform with position := ⟨tx, ty⟩ }, ⟨0, 0⟩, s.angularVelocity,
        s.radius, s.isActive, s.isThrusting,
        max s.invulnerableTime (HYPERSPACE_SHRINK_TIME + HYPERSPACE_WARP_TIME +
          HYPERSPACE_EXPAND_TIME + HYPERSPACE_INVULNERABILITY) -
          HYPERSPACE_SHRINK_TIME - HYPERSPACE_WARP_TIME - HYPERSPACE_EXPAND_TIME,
        HyperspaceState.idle, 0, HYPERSPACE_COOLDOWN - HYPERSPACE_EXPAND_TIME,
        ⟨tx, ty⟩⟩ := by
  have hC : HYPERSPACE_SHRINK_TIME + HYPERSPACE_WARP_TIME + HYPERSPACE_EXPAND_TIME +
      HYPERSPACE_INVULNERABILITY = 2.8 := by
    norm_num [HYPERSPACE_SHRINK_TIME, HYPERSPACE_WARP_TIME, HYPERSPACE_EXPAND_TIME,
      HYPERSPACE_INVULNERABILITY]
  have hmax : (2.8 : ℝ) ≤ max s.invulnerableTime (HYPERSPACE_SHRINK_TIME +
      HYPERSPACE_WARP_TIME + HYPERSPACE_EXPAND_TIME + HYPERSPACE_INVULNERABILITY) := by
    rw [hC]; exact le_max_right _ _
  have hS : HYPERSPACE_SHRINK_TIME = 0.3 := by norm_num [HYPERSPACE_SHRINK_TIME]
  have hW : HYPERSPACE_WARP_TIME = 0.2 := by norm_num [HYPERSPACE_WARP_TIME]
  have hact : s.activateHyperspace tx ty =
      (⟨s.transform, s.velocity, s.angularVelocity, s.radius, s.isActive, s.isThrusting,
        max s.invulnerableTime (HYPERSPACE_SHRINK_TIME + HYPERSPACE_WARP_TIME +
          HYPERSPACE_EXPAND_TIME + HYPERSPACE_INVULNERABILITY),
        HyperspaceState.shrinking, 0, s.hyperspaceCooldown, ⟨tx, ty⟩⟩ : Ship) := by
    rw [Ship.activateHyperspace, if_pos ⟨hidle, hcool⟩]
  have e1 : (⟨s.transform, s.velocity, s.angularVelocity, s.radius, s.isActive,
        s.isThrusting,
        max s.invulnerableTime (HYPERSPACE_SHRINK_TIME + HYPERSPACE_WARP_TIME +
          HYPERSPACE_EXPAND_TIME + HYPERSPACE_INVULNERABILITY),
        HyperspaceState.shrinking, 0, s.hyperspaceCooldown, ⟨tx, ty⟩⟩ : Ship).update
        HYPERSPACE_SHRINK_TIME =
      (⟨s.transform, s.velocity, s.angularVelocity, s.radius, s.isActive, s.isThrusting,
        max s.invulnerableTime (HYPERSPACE_SHRINK_TIME + HYPERSPACE_WARP_TIME +
          HYPERSPACE_EXPAND_TIME + HYPERSPACE_INVULNERABILITY) - HYPERSPACE_SHRINK_TIME,
        HyperspaceState.warping, 0, s.hyperspaceCooldown, ⟨tx, ty⟩⟩ : Ship) :=
    update_shrink_step _ _ rfl (by simp) (by simpa using not_lt.mpr hcool)
      (by simp only; linarith)
  have e2 : (⟨s.transform, s.velocity, s.angularVelocity, s.radius, s.isActive,
        s.isThrusting,
        max s.invulnerableTime (HYPERSPACE_SHRINK_TIME + HYPERSPACE_WARP_TIME +
          HYPERSPACE_EXPAND_TIME + HYPERSPACE_INVULNERABILITY) - HYPERSPACE_SHRINK_TIME,
        HyperspaceState.warping, 0, s.hyperspaceCooldown, ⟨tx, ty⟩⟩ : Ship).update
        HYPERSPACE_WARP_TIME =
      (⟨{ s.transform with position := ⟨tx, ty⟩ }, ⟨0, 0⟩, s.angularVelocity, s.radius,
        s.isActive, s.isThrusting,
        max s.invulnerableTime (HYPERSPACE_SHRINK_TIME + HYPERSPACE_WARP_TIME +
          HYPERSPACE_EXPAND_TIME + HYPERSPACE_INVULNERABILITY) - HYPERSPACE_SHRINK_TIME -
          HYPERSPACE_WARP_TIME,
        HyperspaceState.expanding, 0, s.hyperspaceCooldown, ⟨tx, ty⟩⟩ : Ship) :=
    update_warp_step _ _ rfl (by simp) (by simpa using not_lt.mpr hcool)
      (by simp only; linarith)
  have e3 : (⟨{ s.transform with position := ⟨tx, ty⟩ }, ⟨0, 0⟩, s.angularVelocity,
        s.radius, s.isActive, s.isThrusting,
        max s.invulnerableTime (HYPERSPACE_SHRINK_TIME + HYPERSPACE_WARP_TIME +
          HYPERSPACE_EXPAND_TIME + HYPERSPACE_INVULNERABILITY) - HYPERSPACE_SHRINK_TIME -
          HYPERSPACE_WARP_TIME,
        HyperspaceState.expanding, 0, s.hyperspaceCooldown, ⟨tx, ty⟩⟩ : Ship).update
        HYPERSPACE_EXPAND_TIME =
      (⟨{ s.transform with position := add ⟨tx, ty⟩ (scale ⟨0, 0⟩ HYPERSPACE_EXPAND_TIME) },
        ⟨0, 0⟩, s.angularVelocity, s.radius, s.isActive, s.isThrusting,
        max s.invulnerableTime (HYPERSPACE_SHRINK_TIME + HYPERSPACE_WARP_TIME +
          HYPERSPACE_EXPAND_TIME + HYPERSPACE_INVULNERABILITY) - HYPERSPACE_SHRINK_TIME -
          HYPERSPACE_WARP_TIME - HYPERSPACE_EXPAND_TIME,
        HyperspaceState.idle, 0, HYPERSPACE_COOLDOWN - HYPERSPACE_EXPAND_TIME,
        ⟨tx, ty⟩⟩ : Ship) :=
    update_expand_step _ _ rfl (by simp) (by simp only; linarith)
  rw [hact, e1, e2, e3]
  simp [add, scale]

/-- Claim C3 (amended): the hyperspace cycle driven by `update` calls of
exactly the three phase durations (summing to `shrink + warp + expand`
seconds) ends idle, at the pre-chosen target with velocity zeroed, but with
`hyperspaceCooldown` equal to the configured cooldown *minus the final*
`dt`, because the cooldown starts counting down inside the same `update`
call that completes the expanding phase. -/
theorem claim3_hyperspace_cycle (s : Ship) (tx ty : ℝ)
    (hidle : s.hyperspaceState = HyperspaceState.idle)
    (hcool : s.hyperspaceCooldown ≤ 0) :
    ((((s.activateHyperspace tx ty).update HYPERSPACE_SHRINK_TIME).update
        HYPERSPACE_WARP_TIME).update HYPERSPACE_EXPAND_TIME).hyperspaceState =
      HyperspaceState.idle ∧
    ((((s.activateHyperspace tx ty).update HYPERSPACE_SHRINK_TIME).update
        HYPERSPACE_WARP_TIME).update HYPERSPACE_EXPAND_TIME).transform.position =
      ⟨tx, ty⟩ ∧
    ((((s.activateHyperspace tx ty).update HYPERSPACE_SHRINK_TIME).update
        HYPERSPACE_WARP_TIME).update HYPERSPACE_EXPAND_TIME).velocity = ⟨0, 0⟩ ∧
    ((((s.activateHyperspace tx ty).update HYPERSPACE_SHRINK_TIME).update
        HYPERSPACE_WARP_TIME).update HYPERSPACE_EXPAND_TIME).hyperspaceCooldown =
      HYPERSPACE_COOLDOWN - HYPERSPACE_EXPAND_TIME := by
  rw [hyperspace_cycle_aux s tx ty hidle hcool]
  exact ⟨rfl, rfl, rfl, rfl⟩

/-- Concrete ready-to-jump ship used by the claim C3 witness and
counterexample. -/
noncomputable def demoShipIdle : Ship :=
  ⟨⟨⟨400, 300⟩, 0, 1⟩, ⟨0, 0⟩, 0, 12, true, false, 0,
    HyperspaceState.idle, 0, 0, ⟨0, 0⟩⟩

/-- Counterexample to claim C3 as stated: after a full cycle whose `dt`
values sum to exactly `shrink + warp + expand = 0.8` seconds, the cooldown
is *not* the configured constant (it is `5 - 0.3 = 4.7`). -/
theorem claim3_counterexample :
    HYPERSPACE_SHRINK_TIME + HYPERSPACE_WARP_TIME + HYPERSPACE_EXPAND_TIME = 0.8 ∧
    ((((demoShipIdle.activateHyperspace 100 200).update HYPERSPACE_SHRINK_TIME).update
        HYPERSPACE_WARP_TIME).update HYPERSPACE_EXPAND_TIME).hyperspaceCooldown ≠
      HYPERSPACE_COOLDOWN := by
  have h := hyperspace_cycle_aux demoShipIdle 100 200
    (by rw [demoShipIdle]) (by rw [demoShipIdle])
  refine ⟨by norm_num [HYPERSPACE_SHRINK_TIME, HYPERSPACE_WARP_TIME,
    HYPERSPACE_EXPAND_TIME], ?_⟩
  rw [h]
  norm_num [HYPERSPACE_COOLDOWN, HYPERSPACE_EXPAND_TIME]

/-- Witness for claim C3 (amended) at a concrete ship and target. -/
theorem claim3_witness :
    ((((demoShipIdle.activateHyperspace 100 200).update HYPERSPACE_SHRINK_TIME).update
        HYPERSPACE_WARP_TIME).update HYPERSPACE_EXPAND_TIME).hyperspaceState =
      HyperspaceState.idle ∧
    ((((demoShipIdle.activateHyperspace 100 200).update HYPERSPACE_SHRINK_TIME).update
        HYPERSPACE_WARP_TIME).update HYPERSPACE_EXPAND_TIME).transform.position =
      ⟨100, 200⟩ ∧
    ((((demoShipIdle.activateHyperspace 100 200).update HYPERSPACE_SHRINK_TIME).update
        HYPERSPACE_WARP_TIME).update HYPERSPACE_EXPAND_TIME).hyperspaceCooldown = 4.7 := by
  have h := claim3_hyperspace_cycle demoShipIdle 100 200
    (by rw [demoShipIdle]) (by rw [demoShipIdle])
  exact ⟨h.1, h.2.1, by rw [h.2.2.2]; norm_num [HYPERSPACE_COOLDOWN, HYPERSPACE_EXPAND_TIME]⟩

/-!
Common entity record (`src/core/types.ts` interface `Entity`) and the
collision detector (`src/physics/collision.ts`).
-/

/-- The `Entity` interface: transform, velocity, spin, outline polygon,
bounding-circle radius and active flag. -/
structure Entity where
  transform : Transform
  velocity : Vec2
  angularVelocity : ℝ
  shape : List Vec2
  radius : ℝ
  isActive : Bool

/-- `checkCollision(a, b)`: false if either entity is inactive, else circle
overlap by strict comparison of center distance with the radius sum. -/
noncomputable def checkCollision (a b : Entity) : Bool :=
  if !a.isActive || !b.isActive then false
  else decide (distance a.transform.position b.transform.position < a.radius + b.radius)

/-- Claim C6: `checkCollision` is symmetric; for two active entities it is
true exactly when the distance between the transform positions is strictly
below the radius sum; and it is false whenever either entity is inactive. -/
theorem claim6_checkCollision_spec (a b : Entity) :
    checkCollision a b = checkCollision b a ∧
    (a.isActive = true → b.isActive = true →
      (checkCollision a b = true ↔
        distance a.transform.position b.transform.position < a.radius + b.radius)) ∧
    (a.isActive = false ∨ b.isActive = false → checkCollision a b = false) := by
  have hd : distance a.transform.position b.transform.position =
      distance b.transform.position a.transform.position := by
    rw [distance, distance]
    congr 1
    ring
  refine ⟨?_, ?_, ?_⟩
  · rw [checkCollision, checkCollision]
    cases ha : a.isActive <;> cases hb : b.isActive <;>
      simp [hd, add_comm a.radius b.radius]
  · intro ha hb
    rw [checkCollision, ha, hb]
    simp
  · intro h
    rw [checkCollision]
    rcases h with h | h <;> simp [h]

/-- Concrete entity at the origin with radius 2, for the claim C6 witness. -/
noncomputable def demoEntityA : Entity := ⟨⟨⟨0, 0⟩, 0, 1⟩, ⟨0, 0⟩, 0, [], 2, true⟩

/-- Concrete entity at `(3, 4)` with radius 4, for the claim C6 witness. -/
noncomputable def demoEntityB : Entity := ⟨⟨⟨3, 4⟩, 0, 1⟩, ⟨0, 0⟩, 0, [], 4, true⟩

/-- Witness for claim C6: two active entities 5 apart with radius sum 6
collide, and deactivating one of them kills the collision. -/
theorem claim6_witness :
    checkCollision demoEntityA demoEntityB = true ∧
    checkCollision ⟨⟨⟨0, 0⟩, 0, 1⟩, ⟨0, 0⟩, 0, [], 2, false⟩ demoEntityB = false := by
  constructor
  · rw [(claim6_checkCollision_spec demoEntityA demoEntityB).2.1 rfl rfl]
    have h5 : distance demoEntityA.transform.position demoEntityB.transform.position = 5 := by
      rw [distance]
      simp only [demoEntityA, demoEntityB]
      rw [show ((3 : ℝ) - 0) * ((3 : ℝ) - 0) + ((4 : ℝ) - 0) * ((4 : ℝ) - 0) =
        5 ^ 2 by norm_num]
      exact Real.sqrt_sq (by norm_num)
    rw [h5]
    simp only [demoEntityA, demoEntityB]
    norm_num
  · exact (claim6_checkCollision_spec _ demoEntityB).2.2 (Or.inl rfl)

/-!
Asteroid population, from `src/entities/asteroid.ts`.
-/

/-- The three asteroid sizes, `src/core/types.ts` type `AsteroidSize`. -/
inductive AsteroidSize
  | large
  | medium
  | small
deriving DecidableEq

/-- One row of the asteroid `SIZE_CONFIG` table. -/
structure AsteroidSizeCfg where
  radius : ℝ
  minVerts : ℕ
  maxVerts : ℕ
  speed : ℝ
  points : ℤ

/-- `SIZE_CONFIG` of `src/entities/asteroid.ts`. -/
noncomputable def SIZE_CONFIG : AsteroidSize → AsteroidSizeCfg
  | AsteroidSize.large => ⟨40, 10, 14, 50, 20⟩
  | AsteroidSize.medium => ⟨20, 8, 10, 80, 50⟩
  | AsteroidSize.small => ⟨10, 6, 8, 120, 100⟩

/-- `src/physics/math.ts` `randomInt`: floor of `randomRange(min, max + 1)`. -/
noncomputable def randomInt (lo hi r : ℝ) : ℤ := ⌊randomRange lo (hi + 1) r⌋

/-- The random draws consumed by one `Asteroid` constructor call: the shape
vertex-count draw, the per-vertex radius draws, the spin draw and the
direction draw (the latter used only when no direction is supplied). -/
structure AsteroidRands where
  vertR : ℝ
  radR : ℕ → ℝ
  spinR : ℝ
  dirR : ℝ

/-- `generateAsteroidShape`: vertices evenly spaced in angle with the radius
randomised in the `[0.7, 1.0]` band. -/
noncomputable def generateAsteroidShape (size : AsteroidSize) (vertR : ℝ)
    (radR : ℕ → ℝ) : List Vec2 :=
  let cfg := SIZE_CONFIG size
  let numVerts := (randomInt (cfg.minVerts : ℝ) (cfg.maxVerts : ℝ) vertR).toNat
  (List.range numVerts).map (fun (i : ℕ) =>
    let angle := ((i : ℝ) / (numVerts : ℝ)) * (2 * Real.pi)
    let r := cfg.radius * randomRange 0.7 1.0 (radR i)
    ⟨Real.cos angle * r, Real.sin angle * r⟩)

/-- Asteroid state, class `Asteroid` of `src/entities/asteroid.ts`. -/
structure Asteroid where
  transform : Transform
  velocity : Vec2
  angularVelocity : ℝ
  shape : List Vec2
  radius : ℝ
  isActive : Bool
  size : AsteroidSize
  points : ℤ

/-- The `Asteroid` constructor `new Asteroid(x, y, size, direction?)`. -/
noncomputable def mkAsteroid (x y : ℝ) (size : AsteroidSize) (direction : Option Vec2)
    (rnd : AsteroidRands) : Asteroid :=
  let cfg := SIZE_CONFIG size
  { transform := ⟨⟨x, y⟩, 0, 1⟩
    velocity :=
      match direction with
      | some d => scale d cfg.speed
      | none =>
          let angle := randomRange 0 (2 * Real.pi) rnd.dirR
          ⟨Real.cos angle * cfg.speed, Real.sin angle * cfg.speed⟩
    angularVelocity := randomRange (-2) 2 rnd.spinR
    shape := generateAsteroidShape size rnd.vertR rnd.radR
    radius := cfg.radius
    isActive := true
    size := size
    points := cfg.points }

/-- The random draws consumed by one `Asteroid.split` call: the two
direction-angle draws and the two child constructor calls. -/
structure SplitRands where
  angle1R : ℝ
  angle2R : ℝ
  child1 : AsteroidRands
  child2 : AsteroidRands

/-- `Asteroid.split()`: small splits into nothing; large and medium split
into exactly two children of the next-smaller size at the parent position,
with directions roughly 90 degrees apart. -/
noncomputable def Asteroid.split (a : Asteroid) (r : SplitRands) : List Asteroid :=
  if a.size = AsteroidSize.small then []
  else
    let nextSize :=
      if a.size = AsteroidSize.large then AsteroidSize.medium else AsteroidSize.small
    let x := a.transform.position.x
    let y := a.transform.position.y
    let angle1 := randomRange 0 (2 * Real.pi) r.angle1R
    let angle2 := angle1 + Real.pi / 2 + randomRange (-0.5) 0.5 r.angle2R
    [mkAsteroid x y nextSize (some ⟨Real.cos angle1, Real.sin angle1⟩) r.child1,
     mkAsteroid x y nextSize (some ⟨Real.cos angle2, Real.sin angle2⟩) r.child2]

/-- A velocity obtained by scaling a unit direction `(cos t, sin t)` by a
nonnegative speed has magnitude exactly that speed. -/
lemma magnitude_scale_unit (t s : ℝ) (hs : 0 ≤ s) :
    magnitude (scale ⟨Real.cos t, Real.sin t⟩ s) = s := by
  rw [magnitude, scale]
  simp only
  have hsum : Real.cos t * s * (Real.cos t * s) + Real.sin t * s * (Real.sin t * s) =
      s * s := by
    have hc := Real.sin_sq_add_cos_sq t
    nlinarith [hc]
  rw [hsum]
  exact Real.sqrt_mul_self hs

/-- Claim C5: `split()` on a small asteroid returns the empty list; on a
large (resp. medium) asteroid it returns exactly two medium (resp. small)
children; every child sits at the parent's position and its velocity
magnitude equals its own size's configured speed. -/
theorem claim5_split_spec (a : Asteroid) (r : SplitRands) :
    (a.size = AsteroidSize.small → a.split r = []) ∧
    (a.size = AsteroidSize.large →
      (a.split r).map Asteroid.size = [AsteroidSize.medium, AsteroidSize.medium]) ∧
    (a.size = AsteroidSize.medium →
      (a.split r).map Asteroid.size = [AsteroidSize.small, AsteroidSize.small]) ∧
    (∀ c ∈ a.split r,
      c.transform.position = a.transform.position ∧
      magnitude c.velocity = (SIZE_CONFIG c.size).speed) := by
  refine ⟨?_, ?_, ?_, ?_⟩
  · intro h
    rw [Asteroid.split, if_pos h]
  · intro h
    rw [Asteroid.split, if_neg (by rw [h]; exact fun hc => nomatch hc), if_pos h]
    rfl
  · intro h
    rw [Asteroid.split, if_neg (by rw [h]; exact fun hc => nomatch hc),
      if_neg (by rw [h]; exact fun hc => nomatch hc)]
    rfl
  · intro c hc
    rcases hsz : a.size with _ | _ | _
    · rw [Asteroid.split, if_neg (by rw [hsz]; exact fun h => nomatch h),
        if_pos hsz] at hc
      simp only [List.mem_cons, List.not_mem_nil, or_false] at hc
      rcases hc with hc | hc <;> subst hc <;>
        exact ⟨rfl, magnitude_scale_unit _ _ (by norm_num [SIZE_CONFIG])⟩
    · rw [Asteroid.split, if_neg (by rw [hsz]; exact fun h => nomatch h),
        if_neg (by rw [hsz]; exact fun h => nomatch h)] at hc
      simp only [List.mem_cons, List.not_mem_nil, or_false] at hc
      rcases hc with hc | hc <;> subst hc <;>
        exact ⟨rfl, magnitude_scale_unit _ _ (by norm_num [SIZE_CONFIG])⟩
    · rw [Asteroid.split, if_pos hsz] at hc
      exact absurd hc (List.not_mem_nil c)

/-- Fixed random draws (all zero) for concrete asteroid witnesses. -/
noncomputable def demoAstRands : AsteroidRands := ⟨0, fun _ => 0, 0, 0⟩

/-- Fixed random draws for a concrete `split` call. -/
noncomputable def demoSplitRands : SplitRands := ⟨0, 0, demoAstRands, demoAstRands⟩

/-- Witness for claim C5: a concrete small asteroid splits into nothing and
a concrete large asteroid splits into two mediums. -/
theorem claim5_witness :
    (mkAsteroid 10 20 AsteroidSize.small none demoAstRands).split demoSplitRands = [] ∧
    ((mkAsteroid 10 20 AsteroidSize.large none demoAstRands).split demoSplitRands).map
      Asteroid.size = [AsteroidSize.medium, AsteroidSize.medium] :=
  ⟨(claim5_split_spec _ demoSplitRands).1 rfl,
   (claim5_split_spec _ demoSplitRands).2.1 rfl⟩

/-!
UFO, from `src/entities/ufo.ts`, and `createUFO` from
`src/systems/spawner.ts`.
-/

/-- The two UFO sizes, `src/entities/ufo.ts` type `UFOSize`. -/
inductive UFOSize
  | large
  | small
deriving DecidableEq

/-- One row of the `CONFIG.ufo` size table. -/
structure UFOCfg where
  radius : ℝ
  speed : ℝ
  points : ℤ
  shootCooldown : ℝ

/-- `CONFIG.ufo.large` / `CONFIG.ufo.small` from `src/core/config.ts`. -/
noncomputable def CONFIG.ufo : UFOSize → UFOCfg
  | UFOSize.large => ⟨20, 100, 200, 2⟩
  | UFOSize.small => ⟨12, 150, 1000, 1⟩

/-- Configuration constant `CONFIG.ufo.smallChanceBase`. -/
noncomputable def CONFIG.ufo.smallChanceBase : ℝ := 0.3

/-- Configuration constant `CONFIG.ufo.smallChancePerLevel`. -/
noncomputable def CONFIG.ufo.smallChancePerLevel : ℝ := 0.05

/-- Configuration constant `CONFIG.ufo.smallChanceMax`. -/
noncomputable def CONFIG.ufo.smallChanceMax : ℝ := 0.7

/-- Configuration constant `CONFIG.ufo.verticalSpeedFactor`. -/
noncomputable def CONFIG.ufo.verticalSpeedFactor : ℝ := 0.3

/-- Configuration constant `CONFIG.ufo.directionChangeInterval.min`. -/
noncomputable def CONFIG.ufo.directionChangeIntervalMin : ℝ := 0.5

/-- Configuration constant `CONFIG.ufo.directionChangeInterval.max`. -/
noncomputable def CONFIG.ufo.directionChangeIntervalMax : ℝ := 1.5

/-- `generateUFOShape`: the flying-saucer outline, a pure function of size. -/
noncomputable def generateUFOShape (size : UFOSize) : List Vec2 :=
  let cfg := CONFIG.ufo size
  let r := cfg.radius
  let h := r * 0.4
  [⟨-r * 0.3, -h⟩, ⟨r * 0.3, -h⟩, ⟨r * 0.5, -h * 0.3⟩, ⟨r, 0⟩,
   ⟨r * 0.6, h * 0.5⟩, ⟨-r * 0.6, h * 0.5⟩, ⟨-r, 0⟩, ⟨-r * 0.5, -h * 0.3⟩]

/-- UFO state, class `UFO` of `src/entities/ufo.ts` (the inherited
`ScoreableEntity`/`BaseEntity` fields are flattened in). -/
structure UFO where
  transform : Transform
  velocity : Vec2
  angularVelocity : ℝ
  shape : List Vec2
  radius : ℝ
  isActive : Bool
  points : ℤ
  size : UFOSize
  directionChangeTimer : ℝ
  verticalDirection : ℝ
  baseSpeed : ℝ
  horizontalDirection : ℝ
  shootTimer : ℝ
  shootCooldown : ℝ

/-- The random draws consumed by one `UFO` constructor call. -/
structure UFORands where
  shootR : ℝ
  sideR : ℝ
  yR : ℝ
  vertR : ℝ
  dirTimerR : ℝ

/-- The `UFO` constructor
`new UFO(screenWidth, screenHeight, size = 'large', level = 1)`.
The side pick `Math.random() < 0.5` is the draw `r.sideR < 0.5`. -/
noncomputable def mkUFO (screenWidth screenHeight : ℝ) (size : UFOSize) (level : ℝ)
    (r : UFORands) : UFO :=
  let cfg := CONFIG.ufo size
  let cooldownMultiplier := max 0.3 (1 - (level - 1) * 0.1)
  let cooldown := cfg.shootCooldown * cooldownMultiplier
  let horizontalDirection : ℝ := if r.sideR < 0.5 then 1 else -1
  let x := if r.sideR < 0.5 then -cfg.radius else screenWidth + cfg.radius
  let y := randomRange (screenHeight * 0.2) (screenHeight * 0.8) r.yR
  { transform := ⟨⟨x, y⟩, 0, 1⟩
    velocity := ⟨cfg.speed * horizontalDirection, 0⟩
    angularVelocity := 0
    shape := generateUFOShape size
    radius := cfg.radius
    isActive := true
    points := cfg.points
    size := size
    directionChangeTimer := randomRange CONFIG.ufo.directionChangeIntervalMin
      CONFIG.ufo.directionChangeIntervalMax r.dirTimerR
    verticalDirection := randomRange (-1) 1 r.vertR
    baseSpeed := cfg.speed
    horizontalDirection := horizontalDirection
    shootTimer := randomRange 0.5 cooldown r.shootR
    shootCooldown := cooldown }

/-- `Math.atan2(y, x)`, modelled as the complex argument of `x + i y`. -/
noncomputable def atan2 (y x : ℝ) : ℝ := Complex.arg ⟨x, y⟩

/-- `UFO.tryShoot(playerX, playerY)`: null while the shoot timer is
positive; otherwise resets the timer to `shootCooldown` and returns the
bearing to the player plus a size-dependent uniform spread. -/
noncomputable def UFO.tryShoot (u : UFO) (playerX playerY : ℝ) (spreadR : ℝ) :
    Option ℝ × UFO :=
  if u.shootTimer > 0 then (none, u)
  else
    let u2 := { u with shootTimer := u.shootCooldown }
    let dx := playerX - u.transform.position.x
    let dy := playerY - u.transform.position.y
    let angleToPlayer := atan2 dy dx
    let inaccuracy : ℝ := if u.size = UFOSize.large then 0.4 else 0.15
    (some (angleToPlayer + randomRange (-inaccuracy) inaccuracy spreadR), u2)

/-- `createUFO(screenWidth, screenHeight, level)` from
`src/systems/spawner.ts`: the level sets the small-size probability, but the
`UFO` constructor is invoked as `new UFO(screenWidth, screenHeight, size)`,
so its `level` parameter is left at its default value `1`. -/
noncomputable def createUFO (screenWidth screenHeight level : ℝ) (sizeR : ℝ)
    (r : UFORands) : UFO :=
  let smallChance := min (CONFIG.ufo.smallChanceBase + level * CONFIG.ufo.smallChancePerLevel)
    CONFIG.ufo.smallChanceMax
  let size := if sizeR < smallChance then UFOSize.small else UFOSize.large
  mkUFO screenWidth screenHeight size 1 r

/-- Claim C7 is falsified by the code: a UFO created by the spawner at level
5 (with a size roll giving `large`) has `shootCooldown` equal to the base
cooldown 2, not the level-scaled value `2 * max(0.3, 1 - (5-1)*0.1) = 1.2`,
because `createUFO` never forwards the level to the `UFO` constructor.  A
`tryShoot` call with the timer elapsed therefore resets the timer to the
unscaled base cooldown. -/
theorem claim7_createUFO_cooldown_not_scaled :
    (createUFO 800 600 5 0.9 ⟨0, 0, 0, 0, 0⟩).shootCooldown = 2 ∧
    (CONFIG.ufo UFOSize.large).shootCooldown * max 0.3 (1 - ((5 : ℝ) - 1) * 0.1) = 1.2 ∧
    (({ createUFO 800 600 5 0.9 ⟨0, 0, 0, 0, 0⟩ with
        shootTimer := 0 } : UFO).tryShoot 400 300 0).1.isSome = true ∧
    (({ createUFO 800 600 5 0.9 ⟨0, 0, 0, 0, 0⟩ with
        shootTimer := 0 } : UFO).tryShoot 400 300 0).2.shootTimer = 2 := by
  have hmax1 : max (0.3 : ℝ) (1 - ((1 : ℝ) - 1) * 0.1) = 1 := by
    rw [max_eq_right (by norm_num)]
    norm_num
  have hmax06 : max (0.3 : ℝ) (1 - ((5 : ℝ) - 1) * 0.1) = 0.6 := by
    rw [show (1 : ℝ) - ((5 : ℝ) - 1) * 0.1 = 0.6 by norm_num,
      max_eq_right (by norm_num)]
  have hsize : ¬((0.9 : ℝ) < min (CONFIG.ufo.smallChanceBase + 5 * CONFIG.ufo.smallChancePerLevel)
      CONFIG.ufo.smallChanceMax) := by
    rw [CONFIG.ufo.smallChanceBase, CONFIG.ufo.smallChancePerLevel, CONFIG.ufo.smallChanceMax]
    rw [show min ((0.3 : ℝ) + 5 * 0.05) 0.7 = 0.55 by rw [min_eq_left] <;> norm_num]
    norm_num
  have hcd : (createUFO 800 600 5 0.9 ⟨0, 0, 0, 0, 0⟩).shootCooldown = 2 := by
    rw [createUFO]
    simp only [if_neg hsize]
    rw [mkUFO]
    simp only [CONFIG.ufo, hmax1]
    norm_num
  have hns : ¬(({ createUFO 800 600 5 0.9 ⟨0, 0, 0, 0, 0⟩ with
      shootTimer := 0 } : UFO).shootTimer > 0) := by
    simp only
    norm_num
  refine ⟨hcd, ?_, ?_, ?_⟩
  · rw [show (CONFIG.ufo UFOSize.large).shootCooldown = 2 from rfl, hmax06]
    norm_num
  · rw [UFO.tryShoot, if_neg hns]
    rfl
  · rw [UFO.tryShoot, if_neg hns]
    exact hcd

/-!
Spawner placement, from `src/systems/spawner.ts`.
-/

/-- One sampled asteroid-position candidate: `x = randomRange(0, screenWidth)`,
`y = randomRange(0, screenHeight)` at stream index `k`. -/
noncomputable def astCandidate (screenWidth screenHeight : ℝ) (posRng : ℕ → ℝ × ℝ)
    (k : ℕ) : Vec2 :=
  ⟨randomRange 0 screenWidth (posRng k).1, randomRange 0 screenHeight (posRng k).2⟩

/-- The `while` condition of the `createAsteroids` rejection loop: the
candidate lies inside the square exclusion zone around the avoid position. -/
noncomputable def astInvalid (avoid : Vec2) (avoidRadius : ℝ) (c : Vec2) : Prop :=
  |c.x - avoid.x| < avoidRadius ∧ |c.y - avoid.y| < avoidRadius

noncomputable instance (avoid : Vec2) (avoidRadius : ℝ) (c : Vec2) :
    Decidable (astInvalid avoid avoidRadius c) := by
  unfold astInvalid; infer_instance

/-- The `do { x = ...; y = ... } while (...)` rejection loop inside
`createAsteroids`.  The source loop has **no** attempt bound, so the
embedding is fuelled: `none` means the loop is still running after `fuel`
sampled candidates; on success the chosen position and the next stream
index are returned. -/
noncomputable def asteroidPlacementLoop (screenWidth screenHeight : ℝ) (avoid : Vec2)
    (avoidRadius : ℝ) (posRng : ℕ → ℝ × ℝ) : ℕ → ℕ → Option (Vec2 × ℕ)
  | 0, _ => none
  | fuel + 1, k =>
      if astInvalid avoid avoidRadius (astCandidate screenWidth screenHeight posRng k) then
        asteroidPlacementLoop screenWidth screenHeight avoid avoidRadius posRng fuel (k + 1)
      else some (astCandidate screenWidth screenHeight posRng k, k + 1)

/-- The `for` body of `createAsteroids`: `n` asteroids still to place, `i`
the index of the asteroid being placed (selecting its constructor draws),
`k` the position-candidate stream index. -/
noncomputable def createAsteroidsAux (screenWidth screenHeight : ℝ) (avoid : Vec2)
    (avoidRadius : ℝ) (posRng : ℕ → ℝ × ℝ) (astRng : ℕ → AsteroidRands) (fuel : ℕ) :
    ℕ → ℕ → ℕ → Option (List Asteroid)
  | 0, _, _ => some []
  | n + 1, i, k =>
      match asteroidPlacementLoop screenWidth screenHeight avoid avoidRadius posRng fuel k with
      | none => none
      | some (p, k2) =>
          (createAsteroidsAux screenWidth screenHeight avoid avoidRadius posRng astRng fuel
            n (i + 1) k2).map
            (fun rest => mkAsteroid p.x p.y AsteroidSize.large none (astRng i) :: rest)

/-- `createAsteroids(count, screenWidth, screenHeight, avoidPosition,
avoidRadius = 100)`: `count` large asteroids at rejection-sampled positions. -/
noncomputable def createAsteroids (count : ℕ) (screenWidth screenHeight : ℝ)
    (avoid : Vec2) (avoidRadius : ℝ) (posRng : ℕ → ℝ × ℝ) (astRng : ℕ → AsteroidRands)
    (fuel : ℕ) : Option (List Asteroid) :=
  createAsteroidsAux screenWidth screenHeight avoid avoidRadius posRng astRng fuel count 0 0

/-- One sampled gravity-well position candidate, margin-constrained:
`randomRange(spawnMargin, screen - spawnMargin)` on each axis. -/
noncomputable def gwCandidate (screenWidth screenHeight : ℝ) (posRng : ℕ → ℝ × ℝ)
    (k : ℕ) : Vec2 :=
  ⟨randomRange CONFIG.gravityWell.spawnMargin
      (screenWidth - CONFIG.gravityWell.spawnMargin) (posRng k).1,
   randomRange CONFIG.gravityWell.spawnMargin
      (screenHeight - CONFIG.gravityWell.spawnMargin) (posRng k).2⟩

/-- The `while` condition of the `createGravityWell` loop:
`Math.hypot(x - avoid.x, y - avoid.y) < spawnMinDistanceFromShip`. -/
noncomputable def gwInvalid (avoid c : Vec2) : Prop :=
  Real.sqrt ((c.x - avoid.x) * (c.x - avoid.x) + (c.y - avoid.y) * (c.y - avoid.y)) <
    CONFIG.gravityWell.spawnMinDistanceFromShip

noncomputable instance (avoid c : Vec2) : Decidable (gwInvalid avoid c) := by
  unfold gwInvalid; infer_instance

/-- The bounded `do/while` of `createGravityWell` (`maxAttempts = 20`):
`remaining` counts the retries still allowed after the current sample, so
the initial call uses `remaining = 19`; when retries run out the last
sampled candidate is returned even if invalid. -/
noncomputable def gravityWellPlacementLoop (screenWidth screenHeight : ℝ) (avoid : Vec2)
    (posRng : ℕ → ℝ × ℝ) : ℕ → ℕ → Vec2
  | 0, k => gwCandidate screenWidth screenHeight posRng k
  | r + 1, k =>
      if gwInvalid avoid (gwCandidate screenWidth screenHeight posRng k) then
        gravityWellPlacementLoop screenWidth screenHeight avoid posRng r (k + 1)
      else gwCandidate screenWidth screenHeight posRng k

/-- Configuration constant `CONFIG.gravityWell.duration.min`. -/
noncomputable def CONFIG.gravityWell.durationMin : ℝ := 6

/-- Configuration constant `CONFIG.gravityWell.duration.max`. -/
noncomputable def CONFIG.gravityWell.durationMax : ℝ := 10

/-- `getGravityWellPullStrength(level)`: linear ramp from the minimum,
capped at the maximum. -/
noncomputable def getGravityWellPullStrength (level : ℝ) : ℝ :=
  min CONFIG.gravityWell.pullStrengthMax
    (CONFIG.gravityWell.pullStrengthMin + (level - 1) * 40)

/-- `createGravityWell(screenWidth, screenHeight, avoidPosition, level)`. -/
noncomputable def createGravityWell (screenWidth screenHeight : ℝ) (avoid : Vec2)
    (level : ℝ) (posRng : ℕ → ℝ × ℝ) (durationR : ℝ) : GravityWell :=
  ⟨gravityWellPlacementLoop screenWidth screenHeight avoid posRng 19 0,
   randomRange CONFIG.gravityWell.durationMin CONFIG.gravityWell.durationMax durationR,
   getGravityWellPullStrength level⟩

/-- When every candidate is invalid, the bounded gravity-well loop exhausts
its retries and returns the last sampled candidate. -/
lemma gwLoop_all_invalid (screenWidth screenHeight : ℝ) (avoid : Vec2)
    (posRng : ℕ → ℝ × ℝ)
    (hall : ∀ j, gwInvalid avoid (gwCandidate screenWidth screenHeight posRng j)) :
    ∀ r k, gravityWellPlacementLoop screenWidth screenHeight avoid posRng r k =
      gwCandidate screenWidth screenHeight posRng (k + r) := by
  intro r
  induction r with
  | zero => intro k; rfl
  | succ r ih =>
      intro k
      rw [gravityWellPlacementLoop, if_pos (hall k), ih (k + 1)]
      congr 1
      omega

/-- When every candidate is invalid, the unbounded asteroid rejection loop
never returns, whatever the fuel. -/
lemma astLoop_all_invalid (screenWidth screenHeight : ℝ) (avoid : Vec2)
    (avoidRadius : ℝ) (posRng : ℕ → ℝ × ℝ)
    (hall : ∀ j, astInvalid avoid avoidRadius
      (astCandidate screenWidth screenHeight posRng j)) :
    ∀ fuel k, asteroidPlacementLoop screenWidth screenHeight avoid avoidRadius posRng
      fuel k = none := by
  intro fuel
  induction fuel with
  | zero => intro k; rfl
  | succ fuel ih =>
      intro k
      rw [asteroidPlacementLoop, if_pos (hall k)]
      exact ih (k + 1)

/-- Claim C9 (amended): gravity-well placement is genuinely bounded — with
every candidate invalid it stops after 20 samples and falls back to the last
(20th) sampled candidate — whereas asteroid placement has no attempt bound
and no fallback: the loop returns exactly at the first valid candidate (and,
by `claim9_counterexample`, runs forever when no candidate is ever valid). -/
theorem claim9_placement_spec (screenWidth screenHeight : ℝ) (avoid : Vec2)
    (level : ℝ) (posRng : ℕ → ℝ × ℝ) (durationR : ℝ) (avoidRadius : ℝ) :
    ((∀ j, gwInvalid avoid (gwCandidate screenWidth screenHeight posRng j)) →
      (createGravityWell screenWidth screenHeight avoid level posRng durationR).position =
        gwCandidate screenWidth screenHeight posRng 19) ∧
    (∀ k fuel,
      ¬astInvalid avoid avoidRadius (astCandidate screenWidth screenHeight posRng k) →
      asteroidPlacementLoop screenWidth screenHeight avoid avoidRadius posRng
        (fuel + 1) k = some (astCandidate screenWidth screenHeight posRng k, k + 1)) := by
  constructor
  · intro hall
    show gravityWellPlacementLoop screenWidth screenHeight avoid posRng 19 0 = _
    rw [gwLoop_all_invalid screenWidth screenHeight avoid posRng hall 19 0]
  · intro k fuel hv
    rw [asteroidPlacementLoop, if_neg hv]

/-- Termination of the fuelled `createAsteroids` embedding: some finite
fuel suffices for the rejection-sampling loops to finish.  This is exactly
"the source `do/while` loops terminate" for the given inputs. -/
noncomputable def createAsteroidsTerminates (count : ℕ) (screenWidth screenHeight : ℝ)
    (avoid : Vec2) (avoidRadius : ℝ) (posRng : ℕ → ℝ × ℝ)
    (astRng : ℕ → AsteroidRands) : Prop :=
  ∃ fuel, (createAsteroids count screenWidth screenHeight avoid avoidRadius posRng
    astRng fuel).isSome = true

/-- With the shipped default `avoidRadius = 100`, the avoid position at the
screen center and a random stream that always draws `0.5` (every candidate
lands exactly on the avoid position), the rejection loop rejects every
sample, so no amount of fuel makes `createAsteroids` return. -/
lemma createAsteroids_never_returns :
    ∀ fuel : ℕ, createAsteroids 1 800 600 ⟨400, 300⟩ 100 (fun _ => (0.5, 0.5))
      (fun _ => demoAstRands) fuel = none := by
  have hall : ∀ j, astInvalid ⟨400, 300⟩ 100
      (astCandidate 800 600 (fun _ => (0.5, 0.5)) j) := by
    intro j
    constructor
    · show |randomRange 0 800 0.5 - 400| < 100
      rw [randomRange]
      norm_num
    · show |randomRange 0 600 0.5 - 300| < 100
      rw [randomRange]
      norm_num
  intro fuel
  rw [createAsteroids, createAsteroidsAux,
    astLoop_all_invalid 800 600 ⟨400, 300⟩ 100 (fun _ => (0.5, 0.5)) hall fuel 0]

/-- Counterexample to claim C9 as stated: `createAsteroids` does **not**
"always terminate and return for every input" — at the concrete input with
the shipped `avoidRadius = 100`, center avoid position and the constant
all-`0.5` random stream, it never terminates. -/
theorem claim9_counterexample :
    createAsteroidsTerminates 1 800 600 ⟨400, 300⟩ 100 (fun _ => (0.5, 0.5))
      (fun _ => demoAstRands) = False := by
  apply eq_false
  intro h
  obtain ⟨fuel, hfuel⟩ := h
  rw [createAsteroids_never_returns fuel] at hfuel
  exact Bool.noConfusion hfuel

/-- Witness for claim C9 (amended): with the all-`0.5` stream and avoid
position `(400, 300)` every gravity-well candidate is `(400, 300)` itself
(distance 0 < 150, invalid), so `createGravityWell` falls back to the 20th
candidate `(400, 300)`; and with avoid position `(0, 0)` the first asteroid
candidate `(400, 300)` is valid, so the loop returns it immediately. -/
theorem claim9_witness :
    (createGravityWell 800 600 ⟨400, 300⟩ 1 (fun _ => (0.5, 0.5)) 0).position =
      ⟨400, 300⟩ ∧
    asteroidPlacementLoop 800 600 ⟨0, 0⟩ 100 (fun _ => (0.5, 0.5)) 1 0 =
      some (⟨400, 300⟩, 1) := by
  have hcand : ∀ j, gwCandidate 800 600 (fun _ => (0.5, 0.5)) j = ⟨400, 300⟩ := by
    intro j
    rw [gwCandidate]
    simp only [CONFIG.gravityWell.spawnMargin, randomRange]
    norm_num
  have hacand : ∀ j, astCandidate 800 600 (fun _ => (0.5, 0.5)) j = ⟨400, 300⟩ := by
    intro j
    rw [astCandidate]
    simp only [randomRange]
    norm_num
  have h := claim9_placement_spec 800 600 ⟨400, 300⟩ 1 (fun _ => (0.5, 0.5)) 0 100
  have h2 := claim9_placement_spec 800 600 ⟨0, 0⟩ 1 (fun _ => (0.5, 0.5)) 0 100
  constructor
  · rw [h.1, hcand 19]
    intro j
    rw [gwInvalid, hcand j]
    simp only [CONFIG.gravityWell.spawnMinDistanceFromShip]
    rw [show ((400 : ℝ) - 400) * ((400 : ℝ) - 400) + ((300 : ℝ) - 300) * ((300 : ℝ) - 300) =
      0 by norm_num, Real.sqrt_zero]
    norm_num
  · rw [h2.2 0 0 (by
      rw [astInvalid, hacand 0]
      push_neg
      intro hx
      norm_num), hacand 0]

/-!
Bullets (`src/entities/bullet.ts`) and the session orchestrator `Game`
(`src/core/game.ts`, the revision with UFO, gravity well and high-score
states).  External collaborators are modelled as follows: audio calls are
dropped (pure side effects), `input.clearAll()` clears an `inputBuffered`
flag, debris creation increments a debris counter, and
`highScoreManager.isHighScore` is an abstract boolean predicate on the
score.
-/

/-- Configuration constant `CONFIG.bullet.speed`. -/
noncomputable def CONFIG.bullet.speed : ℝ := 500

/-- Configuration constant `CONFIG.bullet.lifetime`. -/
noncomputable def CONFIG.bullet.lifetime : ℝ := 1.5

/-- Configuration constant `CONFIG.bullet.radius`. -/
noncomputable def CONFIG.bullet.radius : ℝ := 2

/-- Bullet state, class `Bullet` (a `TimedEntity` with empty shape). -/
structure Bullet where
  transform : Transform
  velocity : Vec2
  angularVelocity : ℝ
  shape : List Vec2
  radius : ℝ
  isActive : Bool
  lifetime : ℝ

/-- The `Bullet` constructor `new Bullet(x, y, direction)`. -/
noncomputable def mkBullet (x y : ℝ) (direction : Vec2) : Bullet :=
  ⟨⟨⟨x, y⟩, 0, 1⟩, scale direction CONFIG.bullet.speed, 0, [], CONFIG.bullet.radius,
    true, CONFIG.bullet.lifetime⟩

/-- View an asteroid through the structural `Entity` interface (TypeScript
passes the object itself; the embedding projects explicitly). -/
noncomputable def Asteroid.toEntity (a : Asteroid) : Entity :=
  ⟨a.transform, a.velocity, a.angularVelocity, a.shape, a.radius, a.isActive⟩

/-- View a bullet through the `Entity` interface. -/
noncomputable def Bullet.toEntity (b : Bullet) : Entity :=
  ⟨b.transform, b.velocity, b.angularVelocity, b.shape, b.radius, b.isActive⟩

/-- View the ship through the `Entity` interface. -/
noncomputable def Ship.toEntity (s : Ship) : Entity :=
  ⟨s.transform, s.velocity, s.angularVelocity, SHIP_SHAPE, s.radius, s.isActive⟩

/-- View a UFO through the `Entity` interface. -/
noncomputable def UFO.toEntity (u : UFO) : Entity :=
  ⟨u.transform, u.velocity, u.angularVelocity, u.shape, u.radius, u.isActive⟩

/-- The session states of `GameData.state` (`start | playing | gameOver |
submitScore | viewingScores`). -/
inductive SessionState
  | start
  | playing
  | gameOver
  | submitScore
  | viewingScores
deriving DecidableEq

/-- Configuration constant `CONFIG.timing.respawnDelay`. -/
noncomputable def CONFIG.timing.respawnDelay : ℝ := 2

/-- Configuration constant `CONFIG.timing.gameOverReturnDelay`. -/
noncomputable def CONFIG.timing.gameOverReturnDelay : ℝ := 10

/-- Configuration constant `CONFIG.asteroid.startingCount`. -/
def CONFIG.asteroid.startingCount : ℕ := 4

/-- Configuration constant `CONFIG.screen.width`. -/
noncomputable def CONFIG.screen.width : ℝ := 800

/-- Configuration constant `CONFIG.screen.height`. -/
noncomputable def CONFIG.screen.height : ℝ := 600

/-- Shipped configuration constant `CONFIG.debug.disablePlayerCollision`
(`true` in `src/core/config.ts`). -/
def CONFIG.debug.disablePlayerCollision : Bool := true

/-- The orchestrator state: the `GameData` record plus the entity slots the
`Game` class holds as fields. -/
structure GameState where
  score : ℤ
  lives : ℤ
  level : ℕ
  state : SessionState
  ship : Ship
  asteroids : List Asteroid
  bullets : List Bullet
  ufoBullets : List Bullet
  debris : ℕ
  ufo : Option UFO
  gravityWell : Option GravityWell
  ufoSpawnTimer : ℝ
  gravityWellSpawnTimer : ℝ
  respawnTimer : ℝ
  gameOverTimer : ℝ
  finalScore : Option ℤ
  finalLevel : Option ℕ
  inputBuffered : Bool

/-- `Game.shipDestroyed()`: spawn debris, deactivate the ship, decrement
lives, clear buffered input; on the last life record the final score/level,
go to `submitScore` (high score) or `gameOver` (with return countdown), and
tear down the UFO and gravity well; otherwise start the respawn countdown. -/
noncomputable def shipDestroyed (isHigh : ℤ → Bool) (g : GameState) : GameState :=
  let g1 := { g with
    debris := g.debris + 1,
    ship := { g.ship with isActive := false },
    lives := g.lives - 1,
    inputBuffered := false }
  if g1.lives ≤ 0 then
    let g2 := { g1 with finalScore := some g1.score, finalLevel := some g1.level }
    let g3 :=
      if isHigh g2.score then { g2 with state := SessionState.submitScore }
      else { g2 with state := SessionState.gameOver,
                     gameOverTimer := CONFIG.timing.gameOverReturnDelay }
    { g3 with ufo := none, gravityWell := none }
  else
    { g1 with respawnTimer := CONFIG.timing.respawnDelay }

/-- The loop of `Game.checkUFOBulletCollisions`: find the first hostile
bullet colliding with the ship, deactivate it, and report the updated list;
`none` when no bullet hits. -/
noncomputable def ufoBulletScan (ship : Ship) : List Bullet → Option (List Bullet)
  | [] => none
  | b :: rest =>
      if checkCollision b.toEntity ship.toEntity then
        some ({ b with isActive := false } :: rest)
      else (ufoBulletScan ship rest).map (fun rest2 => b :: rest2)

/-- `Game.checkUFOBulletCollisions()`: skipped while the ship is inactive,
invulnerable or in hyperspace; a hit deactivates the bullet and destroys
the ship.  This path never consults the debug collision flag. -/
noncomputable def checkUFOBulletCollisions (isHigh : ℤ → Bool) (g : GameState) :
    GameState :=
  if g.ship.isActive = false ∨ g.ship.isInvulnerable ∨ g.ship.isInHyperspace then g
  else
    match ufoBulletScan g.ship g.ufoBullets with
    | some bullets2 => shipDestroyed isHigh { g with ufoBullets := bullets2 }
    | none => g

/-- `Game.checkShipCollision()`: returns immediately when
`CONFIG.debug.disablePlayerCollision` is set; otherwise ship/asteroid and
ship/UFO contact destroys the (vulnerable) ship. -/
noncomputable def checkShipCollision (isHigh : ℤ → Bool) (g : GameState) : GameState :=
  if CONFIG.debug.disablePlayerCollision then g
  else if g.ship.isActive = false ∨ g.ship.isInvulnerable ∨ g.ship.isInHyperspace then g
  else if g.asteroids.any (fun a => checkCollision g.ship.toEntity a.toEntity) then
    shipDestroyed isHigh g
  else
    match g.ufo with
    | some u =>
        if checkCollision g.ship.toEntity u.toEntity then shipDestroyed isHigh g else g
    | none => g

/-- `getNextUFOSpawnTime()` from the spawner
(`randomRange(spawnDelay.min, spawnDelay.max)`). -/
noncomputable def getNextUFOSpawnTime (r : ℝ) : ℝ := randomRange 15 30 r

/-- The loop of `Game.checkUFOCollisions`: first player bullet hitting the
UFO, with the bullet deactivated in the returned list. -/
noncomputable def ufoHitScan (u : UFO) : List Bullet → Option (List Bullet)
  | [] => none
  | b :: rest =>
      if checkCollision b.toEntity u.toEntity then
        some ({ b with isActive := false } :: rest)
      else (ufoHitScan u rest).map (fun rest2 => b :: rest2)

/-- `Game.checkUFOCollisions()`: a player bullet destroys the UFO, credits
its points, spawns debris and schedules the next UFO spawn. -/
noncomputable def checkUFOCollisions (g : GameState) (spawnR : ℝ) : GameState :=
  match g.ufo with
  | none => g
  | some u =>
      match ufoHitScan u g.bullets with
      | some bullets2 =>
          { g with bullets := bullets2, score := g.score + u.points,
                   debris := g.debris + 1, ufo := none,
                   ufoSpawnTimer := getNextUFOSpawnTime spawnR }
      | none => g

/-- Inner loop of `Game.checkBulletCollisions` for one bullet: scan the
asteroid list in order; at the first collision deactivate the asteroid,
credit its points and split it, then stop (the `break`).  `none` when the
bullet hits nothing. -/
noncomputable def bulletScanAsteroids (b : Bullet) (sr : SplitRands) :
    List Asteroid → Option (List Asteroid × ℤ × List Asteroid)
  | [] => none
  | a :: rest =>
      if checkCollision b.toEntity a.toEntity then
        some ({ a with isActive := false } :: rest, a.points, a.split sr)
      else
        (bulletScanAsteroids b sr rest).map
          (fun res => (a :: res.1, res.2.1, res.2.2))

/-- Outer loop of `Game.checkBulletCollisions`: bullets processed in order
against the evolving asteroid list; a hit also deactivates the bullet.  The
split-randomness stream index `k` advances once per destroyed asteroid.
Returns (bullets, asteroids, score gained, collected split children). -/
noncomputable def bulletsScan (splitRng : ℕ → SplitRands) :
    List Bullet → List Asteroid → ℕ → List Bullet × List Asteroid × ℤ × List Asteroid
  | [], asts, _ => ([], asts, 0, [])
  | b :: bs, asts, k =>
      match bulletScanAsteroids b (splitRng k) asts with
      | some (asts2, pts, children) =>
          let rest := bulletsScan splitRng bs asts2 (k + 1)
          ({ b with isActive := false } :: rest.1, rest.2.1, pts + rest.2.2.1,
            children ++ rest.2.2.2)
      | none =>
          let rest := bulletsScan splitRng bs asts k
          (b :: rest.1, rest.2.1, rest.2.2.1, rest.2.2.2)

/-- `Game.checkBulletCollisions()`: resolve player-bullet/asteroid hits,
add the gained score, then replace the asteroid list by its still-active
members followed by the split children. -/
noncomputable def checkBulletCollisions (splitRng : ℕ → SplitRands) (g : GameState) :
    GameState :=
  let res := bulletsScan splitRng g.bullets g.asteroids 0
  { g with
      bullets := res.1,
      score := g.score + res.2.2.1,
      asteroids := (res.2.1.filter (fun a => a.isActive)) ++ res.2.2.2 }

/-- `Game.nextLevel()`: increment the level, then spawn
`startingCount + level - 1` large asteroids avoiding the ship position
(with the default `avoidRadius = 100`); `none` when the fuelled placement
loop does not finish. -/
noncomputable def nextLevel (g : GameState) (posRng : ℕ → ℝ × ℝ)
    (astRng : ℕ → AsteroidRands) (fuel : ℕ) : Option GameState :=
  let level2 := g.level + 1
  let numAsteroids := CONFIG.asteroid.startingCount + level2 - 1
  (createAsteroids numAsteroids CONFIG.screen.width CONFIG.screen.height
      g.ship.transform.position 100 posRng astRng fuel).map
    (fun asts => { g with level := level2, asteroids := g.asteroids ++ asts })

/-- The level-completion check at the end of `Game.update`:
`if (this.asteroids.length === 0) this.nextLevel()`. -/
noncomputable def checkLevelComplete (g : GameState) (posRng : ℕ → ℝ × ℝ)
    (astRng : ℕ → AsteroidRands) (fuel : ℕ) : Option GameState :=
  if g.asteroids.length = 0 then nextLevel g posRng astRng fuel else some g

/-- `shipDestroyed` when lives remain: only debris, ship flag, lives, input
buffer and the respawn timer change. -/
lemma shipDestroyed_nonlast (isHigh : ℤ → Bool) (g : GameState)
    (h : ¬(g.lives - 1 ≤ 0)) :
    shipDestroyed isHigh g = { g with
      debris := g.debris + 1,
      ship := { g.ship with isActive := false },
      lives := g.lives - 1,
      inputBuffered := false,
      respawnTimer := CONFIG.timing.respawnDelay } := by
  simp only [shipDestroyed]
  rw [if_neg h]

/-- `shipDestroyed` on the last life: lives drop to `lives - 1`, the session
state leaves `playing`, and both the UFO and gravity-well slots are
cleared. -/
lemma shipDestroyed_last (isHigh : ℤ → Bool) (g : GameState)
    (h : g.lives - 1 ≤ 0) :
    (shipDestroyed isHigh g).lives = g.lives - 1 ∧
    (shipDestroyed isHigh g).state ≠ SessionState.playing ∧
    (shipDestroyed isHigh g).ufo = none ∧
    (shipDestroyed isHigh g).gravityWell = none ∧
    (shipDestroyed isHigh g).ship.isActive = false := by
  simp only [shipDestroyed]
  rw [if_pos h]
  by_cases hc : isHigh g.score = true
  · rw [if_pos hc]
    exact ⟨rfl, fun hcon => SessionState.noConfusion hcon, rfl, rfl, rfl⟩
  · rw [if_neg hc]
    exact ⟨rfl, fun hcon => SessionState.noConfusion hcon, rfl, rfl, rfl⟩

/-- Every `shipDestroyed` call decrements lives by one and deactivates the
ship, whichever branch is taken. -/
lemma shipDestroyed_lives_drop (isHigh : ℤ → Bool) (g : GameState) :
    (shipDestroyed isHigh g).lives = g.lives - 1 ∧
    (shipDestroyed isHigh g).ship.isActive = false := by
  by_cases h : g.lives - 1 ≤ 0
  · have hl := shipDestroyed_last isHigh g h
    exact ⟨hl.1, hl.2.2.2.2⟩
  · rw [shipDestroyed_nonlast isHigh g h]
    exact ⟨rfl, rfl⟩

/-- Claim C2: from `playing`, a ship destruction that brings lives to
exactly 0 leaves the `playing` state and clears both the UFO and the
gravity-well slot; from `lives = 3`, three destructions in sequence give the
lives sequence 2, 1, 0, with the session state still `playing` after the
first two and leaving `playing` only on the third. -/
theorem claim2_shipDestroyed_spec (g : GameState) (isHigh : ℤ → Bool)
    (hplay : g.state = SessionState.playing) :
    (g.lives = 1 →
      (shipDestroyed isHigh g).lives = 0 ∧
      (shipDestroyed isHigh g).state ≠ SessionState.playing ∧
      (shipDestroyed isHigh g).ufo = none ∧
      (shipDestroyed isHigh g).gravityWell = none) ∧
    (g.lives = 3 →
      (shipDestroyed isHigh g).lives = 2 ∧
      (shipDestroyed isHigh g).state = SessionState.playing ∧
      (shipDestroyed isHigh (shipDestroyed isHigh g)).lives = 1 ∧
      (shipDestroyed isHigh (shipDestroyed isHigh g)).state = SessionState.playing ∧
      (shipDestroyed isHigh (shipDestroyed isHigh (shipDestroyed isHigh g))).lives = 0 ∧
      (shipDestroyed isHigh (shipDestroyed isHigh (shipDestroyed isHigh g))).state ≠
        SessionState.playing ∧
      (shipDestroyed isHigh (shipDestroyed isHigh (shipDestroyed isHigh g))).ufo = none ∧
      (shipDestroyed isHigh (shipDestroyed isHigh (shipDestroyed isHigh g))).gravityWell =
        none) := by
  constructor
  · intro h1
    have hl := shipDestroyed_last isHigh g (by rw [h1]; norm_num)
    exact ⟨by rw [hl.1, h1]; norm_num, hl.2.1, hl.2.2.1, hl.2.2.2.1⟩
  · intro h3
    have e1 := shipDestroyed_nonlast isHigh g (by rw [h3]; norm_num)
    have l1 : (shipDestroyed isHigh g).lives = 2 := by
      rw [e1]
      show g.lives - 1 = 2
      rw [h3]
      norm_num
    have s1 : (shipDestroyed isHigh g).state = SessionState.playing := by
      rw [e1]
      exact hplay
    have e2 := shipDestroyed_nonlast isHigh (shipDestroyed isHigh g)
      (by rw [l1]; norm_num)
    have l2 : (shipDestroyed isHigh (shipDestroyed isHigh g)).lives = 1 := by
      rw [e2]
      show (shipDestroyed isHigh g).lives - 1 = 1
      rw [l1]
      norm_num
    have s2 : (shipDestroyed isHigh (shipDestroyed isHigh g)).state =
        SessionState.playing := by
      rw [e2]
      exact s1
    have hl3 := shipDestroyed_last isHigh
      (shipDestroyed isHigh (shipDestroyed isHigh g)) (by rw [l2]; norm_num)
    exact ⟨l1, s1, l2, s2, by rw [hl3.1, l2]; norm_num, hl3.2.1, hl3.2.2.1,
      hl3.2.2.2.1⟩

/-- A playing game state used by the concrete witnesses: score 0, 3 lives,
level 1, the idle demo ship, no entities, no UFO, no gravity well. -/
noncomputable def demoGame : GameState :=
  ⟨0, 3, 1, SessionState.playing, demoShipIdle, [], [], [], 0, none, none, 0, 0, 0, 0,
    none, none, false⟩

/-- Witness for claim C2: three destructions of the demo game give the
lives sequence 2, 1, 0; the third leaves `playing` and clears the UFO slot. -/
theorem claim2_witness :
    (shipDestroyed (fun _ => false) demoGame).lives = 2 ∧
    (shipDestroyed (fun _ => false) (shipDestroyed (fun _ => false) demoGame)).lives = 1 ∧
    (shipDestroyed (fun _ => false) (shipDestroyed (fun _ => false)
      (shipDestroyed (fun _ => false) demoGame))).lives = 0 ∧
    (shipDestroyed (fun _ => false) (shipDestroyed (fun _ => false)
      (shipDestroyed (fun _ => false) demoGame))).state ≠ SessionState.playing ∧
    (shipDestroyed (fun _ => false) (shipDestroyed (fun _ => false)
      (shipDestroyed (fun _ => false) demoGame))).ufo = none := by
  have h := (claim2_shipDestroyed_spec demoGame (fun _ => false) rfl).2 rfl
  exact ⟨h.1, h.2.2.1, h.2.2.2.2.1, h.2.2.2.2.2.1, h.2.2.2.2.2.2.1⟩

/-- `checkBulletCollisions` never touches lives or the ship. -/
lemma checkBulletCollisions_preserves (splitRng : ℕ → SplitRands) (g : GameState) :
    (checkBulletCollisions splitRng g).lives = g.lives ∧
    (checkBulletCollisions splitRng g).ship = g.ship := by
  simp only [checkBulletCollisions]
  exact ⟨by trivial, by trivial⟩

/-- `checkUFOCollisions` never touches lives or the ship. -/
lemma checkUFOCollisions_preserves (g : GameState) (spawnR : ℝ) :
    (checkUFOCollisions g spawnR).lives = g.lives ∧
    (checkUFOCollisions g spawnR).ship = g.ship := by
  rcases hu : g.ufo with _ | u
  · simp only [checkUFOCollisions, hu]
    exact ⟨by trivial, by trivial⟩
  · rcases hscan : ufoHitScan u g.bullets with _ | bl
    · simp only [checkUFOCollisions, hu, hscan]
      exact ⟨by trivial, by trivial⟩
    · simp only [checkUFOCollisions, hu, hscan]
      exact ⟨by trivial, by trivial⟩

/-- Distance from a point to itself is zero. -/
lemma distance_self (p : Vec2) : distance p p = 0 := by
  rw [distance]
  rw [show (p.x - p.x) * (p.x - p.x) + (p.y - p.y) * (p.y - p.y) = (0 : ℝ) by ring]
  exact Real.sqrt_zero

/-- Two active entities at the same position with positive radius sum
collide. -/
lemma checkCollision_same_pos (a b : Entity)
    (hpos : a.transform.position = b.transform.position)
    (ha : a.isActive = true) (hb : b.isActive = true)
    (hr : 0 < a.radius + b.radius) :
    checkCollision a b = true := by
  rw [checkCollision, ha, hb]
  rw [if_neg (by decide : ¬((!true || !true) = true))]
  rw [hpos, distance_self]
  exact decide_eq_true hr

/-- Claim C10: with the shipped `CONFIG.debug.disablePlayerCollision = true`
the ship-collision pass is the identity on the game state (ship/asteroid
and ship/UFO contact never destroys the ship), the player-bullet passes
never touch lives or the ship, and a hostile UFO bullet hit — which never
consults that flag — still destroys the vulnerable ship and decrements
lives. -/
theorem claim10_debug_collision_spec (isHigh : ℤ → Bool) (g : GameState)
    (spawnR : ℝ) (splitRng : ℕ → SplitRands) :
    checkShipCollision isHigh g = g ∧
    (checkBulletCollisions splitRng g).lives = g.lives ∧
    (checkBulletCollisions splitRng g).ship = g.ship ∧
    (checkUFOCollisions g spawnR).lives = g.lives ∧
    (checkUFOCollisions g spawnR).ship = g.ship ∧
    (g.ship.isActive = true → ¬g.ship.isInvulnerable → ¬g.ship.isInHyperspace →
      ∀ b rest, g.ufoBullets = b :: rest →
        checkCollision b.toEntity g.ship.toEntity = true →
        (checkUFOBulletCollisions isHigh g).lives = g.lives - 1 ∧
        (checkUFOBulletCollisions isHigh g).ship.isActive = false) := by
  refine ⟨?_, (checkBulletCollisions_preserves splitRng g).1,
    (checkBulletCollisions_preserves splitRng g).2,
    (checkUFOCollisions_preserves g spawnR).1,
    (checkUFOCollisions_preserves g spawnR).2, ?_⟩
  · rw [checkShipCollision]
    simp [CONFIG.debug.disablePlayerCollision]
  · intro hact hinv hhyp b rest hbul hcol
    have hguard : ¬(g.ship.isActive = false ∨ g.ship.isInvulnerable ∨
        g.ship.isInHyperspace) := by
      intro hcon
      rcases hcon with h | h | h
      · rw [hact] at h
        exact Bool.noConfusion h
      · exact hinv h
      · exact hhyp h
    have hscan : ufoBulletScan g.ship g.ufoBullets =
        some ({ b with isActive := false } :: rest) := by
      rw [hbul, ufoBulletScan, if_pos hcol]
    rw [checkUFOBulletCollisions, if_neg hguard, hscan]
    have hd := shipDestroyed_lives_drop isHigh
      { g with ufoBullets := { b with isActive := false } :: rest }
    exact ⟨hd.1, hd.2⟩

/-- The demo game with one hostile bullet exactly on the ship, for the
claim C10 witness. -/
noncomputable def demoGameHit : GameState :=
  ⟨0, 3, 1, SessionState.playing, demoShipIdle, [], [], [mkBullet 400 300 ⟨1, 0⟩], 0,
    none, none, 0, 0, 0, 0, none, none, false⟩

/-- Witness for claim C10: the ship-collision pass leaves the state with a
hostile bullet on the ship untouched, while the UFO-bullet pass destroys
the ship and drops lives from 3 to 2. -/
theorem claim10_witness :
    checkShipCollision (fun _ => false) demoGameHit = demoGameHit ∧
    (checkUFOBulletCollisions (fun _ => false) demoGameHit).lives = 2 ∧
    (checkUFOBulletCollisions (fun _ => false) demoGameHit).ship.isActive = false := by
  have h := claim10_debug_collision_spec (fun _ => false) demoGameHit 0
    (fun _ => demoSplitRands)
  have hcol : checkCollision (mkBullet 400 300 ⟨1, 0⟩).toEntity
      demoGameHit.ship.toEntity = true := by
    apply checkCollision_same_pos
    · rfl
    · rfl
    · rfl
    · show (0 : ℝ) < CONFIG.bullet.radius + demoShipIdle.radius
      rw [CONFIG.bullet.radius, demoShipIdle]
      norm_num
  have h2 := h.2.2.2.2.2 rfl
    (by
      rw [Ship.isInvulnerable]
      show ¬(demoShipIdle.invulnerableTime > 0)
      rw [demoShipIdle]
      norm_num)
    (by
      rw [Ship.isInHyperspace]
      show ¬(demoShipIdle.hyperspaceState ≠ HyperspaceState.idle)
      rw [demoShipIdle]
      simp)
    (mkBullet 400 300 ⟨1, 0⟩) [] rfl hcol
  refine ⟨h.1, ?_, h2.2⟩
  rw [h2.1]
  show (3 : ℤ) - 1 = 2
  norm_num

/-- `mkAsteroid` assigns the size's configured point value. -/
lemma mkAsteroid_points (x y : ℝ) (sz : AsteroidSize) (d : Option Vec2)
    (r : AsteroidRands) : (mkAsteroid x y sz d r).points = (SIZE_CONFIG sz).points := rfl

/-- `mkAsteroid` records its size. -/
lemma mkAsteroid_size (x y : ℝ) (sz : AsteroidSize) (d : Option Vec2)
    (r : AsteroidRands) : (mkAsteroid x y sz d r).size = sz := rfl

/-- A freshly constructed bullet sitting exactly on a freshly constructed
large asteroid collides with it. -/
lemma collide_bullet_asteroid_same_pos (x y : ℝ) (d : Vec2) (ar : AsteroidRands) :
    checkCollision (mkBullet x y d).toEntity
      (mkAsteroid x y AsteroidSize.large none ar).toEntity = true :=
  checkCollision_same_pos _ _ rfl rfl rfl
    (by
      show (0 : ℝ) < CONFIG.bullet.radius + (SIZE_CONFIG AsteroidSize.large).radius
      rw [CONFIG.bullet.radius]
      norm_num [SIZE_CONFIG])

/-- No bullet collides with a deactivated asteroid (stated over an explicit
constructor so it rewrites whatever the other field values look like). -/
lemma checkCollision_dead_asteroid (b : Bullet) (t : Transform) (v : Vec2) (av : ℝ)
    (sh : List Vec2) (rad : ℝ) (sz : AsteroidSize) (pts : ℤ) :
    checkCollision b.toEntity (Asteroid.mk t v av sh rad false sz pts).toEntity =
      false := by
  rw [checkCollision]
  simp [Asteroid.toEntity]

/-- Four bullets, each sitting on its own large asteroid, destroy all four
directly: the score gained by the scan is exactly `4 * largePoints`,
whatever the split randomness. -/
lemma scenario_scan_score (splitRng : ℕ → SplitRands) (d1 d2 d3 d4 : Vec2)
    (ar : ℕ → AsteroidRands) :
    (bulletsScan splitRng
      [mkBullet 0 0 d1, mkBullet 200 0 d2, mkBullet 400 0 d3, mkBullet 600 0 d4]
      [mkAsteroid 0 0 AsteroidSize.large none (ar 1),
       mkAsteroid 200 0 AsteroidSize.large none (ar 2),
       mkAsteroid 400 0 AsteroidSize.large none (ar 3),
       mkAsteroid 600 0 AsteroidSize.large none (ar 4)] 0).2.2.1 =
      4 * (SIZE_CONFIG AsteroidSize.large).points := by
  simp only [bulletsScan, bulletScanAsteroids, collide_bullet_asteroid_same_pos,
    checkCollision_dead_asteroid, mkAsteroid_points, if_true, if_false,
    Bool.false_eq_true, ite_true, ite_false, Option.map_some', Option.map_none']
  ring

/-- Fully-valid candidate streams make `createAsteroidsAux` succeed with
exactly the requested number of large asteroids, in one placement sample
each. -/
lemma createAsteroidsAux_all_valid (avoid : Vec2) (posRng : ℕ → ℝ × ℝ)
    (astRng : ℕ → AsteroidRands) (fuel : ℕ)
    (hall : ∀ j, ¬astInvalid avoid 100
      (astCandidate CONFIG.screen.width CONFIG.screen.height posRng j)) :
    ∀ n i k, ∃ l, createAsteroidsAux CONFIG.screen.width CONFIG.screen.height avoid 100
        posRng astRng (fuel + 1) n i k = some l ∧
      l.length = n ∧ ∀ a ∈ l, a.size = AsteroidSize.large := by
  intro n
  induction n with
  | zero =>
      intro i k
      exact ⟨[], rfl, rfl, fun a ha => absurd ha (List.not_mem_nil a)⟩
  | succ n ih =>
      intro i k
      obtain ⟨l, hl, hlen, hsz⟩ := ih (i + 1) (k + 1)
      refine ⟨mkAsteroid (astCandidate CONFIG.screen.width CONFIG.screen.height posRng k).x
        (astCandidate CONFIG.screen.width CONFIG.screen.height posRng k).y
        AsteroidSize.large none (astRng i) :: l, ?_, ?_, ?_⟩
      · rw [createAsteroidsAux, asteroidPlacementLoop, if_neg (hall k)]
        simp only [hl, Option.map_some']
      · simp [hlen]
      · intro a ha
        rcases List.mem_cons.mp ha with h | h
        · rw [h, mkAsteroid_size]
        · exact hsz a h

/-- Claim C8: (a) with a level of four large asteroids each hit directly by
a player bullet, `checkBulletCollisions` increases the score by exactly
`4 * large.points`, whatever the split randomness (no split children
credited); (b) whenever the asteroid list is empty, the level-completion
check increments the level by one and (with successful placement sampling)
creates a wave of `startingCount + newLevel - 1` large asteroids —
`startingCount + 1` when going from level 1 to 2 — without changing the
session state. -/
theorem claim8_wave_spec :
    (∀ (g : GameState) (splitRng : ℕ → SplitRands) (d1 d2 d3 d4 : Vec2)
        (ar : ℕ → AsteroidRands),
      g.asteroids = [mkAsteroid 0 0 AsteroidSize.large none (ar 1),
        mkAsteroid 200 0 AsteroidSize.large none (ar 2),
        mkAsteroid 400 0 AsteroidSize.large none (ar 3),
        mkAsteroid 600 0 AsteroidSize.large none (ar 4)] →
      g.bullets = [mkBullet 0 0 d1, mkBullet 200 0 d2, mkBullet 400 0 d3,
        mkBullet 600 0 d4] →
      (checkBulletCollisions splitRng g).score =
        g.score + 4 * (SIZE_CONFIG AsteroidSize.large).points) ∧
    (∀ (g : GameState) (posRng : ℕ → ℝ × ℝ) (astRng : ℕ → AsteroidRands) (fuel : ℕ),
      g.state = SessionState.playing →
      g.asteroids = [] →
      (∀ j, ¬astInvalid g.ship.transform.position 100
        (astCandidate CONFIG.screen.width CONFIG.screen.height posRng j)) →
      ∃ g2, checkLevelComplete g posRng astRng (fuel + 1) = some g2 ∧
        g2.level = g.level + 1 ∧
        g2.state = SessionState.playing ∧
        g2.asteroids.length = CONFIG.asteroid.startingCount + (g.level + 1) - 1 ∧
        (∀ a ∈ g2.asteroids, a.size = AsteroidSize.large) ∧
        (g.level = 1 → g2.asteroids.length = CONFIG.asteroid.startingCount + 1)) := by
  constructor
  · intro g splitRng d1 d2 d3 d4 ar ha hb
    simp only [checkBulletCollisions]
    rw [ha, hb, scenario_scan_score]
  · intro g posRng astRng fuel hstate hempty hall
    obtain ⟨l, hl, hlen, hsz⟩ := createAsteroidsAux_all_valid g.ship.transform.position
      posRng astRng fuel hall (CONFIG.asteroid.startingCount + (g.level + 1) - 1) 0 0
    refine ⟨{ g with level := g.level + 1, asteroids := g.asteroids ++ l },
      ?_, rfl, hstate, ?_, ?_, ?_⟩
    · rw [checkLevelComplete, if_pos (by rw [hempty]; rfl)]
      simp only [nextLevel]
      rw [createAsteroids, hl]
      rfl
    · show (g.asteroids ++ l).length = _
      rw [hempty]
      simpa using hlen
    · show ∀ a ∈ g.asteroids ++ l, a.size = AsteroidSize.large
      rw [hempty]
      simpa using hsz
    · intro hlev
      show (g.asteroids ++ l).length = _
      rw [hempty]
      simp only [List.nil_append]
      rw [hlen, hlev]
      rfl

/-- The demo scenario for the claim C8 witness: four large asteroids with a
player bullet sitting on each. -/
noncomputable def demoScenario : GameState :=
  ⟨0, 3, 1, SessionState.playing, demoShipIdle,
    [mkAsteroid 0 0 AsteroidSize.large none demoAstRands,
     mkAsteroid 200 0 AsteroidSize.large none demoAstRands,
     mkAsteroid 400 0 AsteroidSize.large none demoAstRands,
     mkAsteroid 600 0 AsteroidSize.large none demoAstRands],
    [mkBullet 0 0 ⟨0, 1⟩, mkBullet 200 0 ⟨0, 1⟩, mkBullet 400 0 ⟨0, 1⟩,
     mkBullet 600 0 ⟨0, 1⟩],
    [], 0, none, none, 0, 0, 0, 0, none, none, false⟩

/-- Witness for claim C8: the demo scenario gains exactly 80 points
(4 × 20), and completing the empty level-1 board yields level 2 with a wave
of 5 large asteroids, still `playing`. -/
theorem claim8_witness :
    (checkBulletCollisions (fun _ => demoSplitRands) demoScenario).score = 80 ∧
    (∃ g2, checkLevelComplete demoGame (fun _ => (0, 0)) (fun _ => demoAstRands) 1 =
      some g2 ∧ g2.level = 2 ∧ g2.state = SessionState.playing ∧
      g2.asteroids.length = 5) := by
  constructor
  · have h := (claim8_wave_spec).1 demoScenario (fun _ => demoSplitRands)
      ⟨0, 1⟩ ⟨0, 1⟩ ⟨0, 1⟩ ⟨0, 1⟩ (fun _ => demoAstRands) rfl rfl
    rw [h]
    show (0 : ℤ) + 4 * (SIZE_CONFIG AsteroidSize.large).points = 80
    norm_num [SIZE_CONFIG]
  · obtain ⟨g2, hg2, hlev, hst, _, _, hspec⟩ := (claim8_wave_spec).2 demoGame
      (fun _ => (0, 0)) (fun _ => demoAstRands) 0 rfl rfl
      (by
        intro j
        intro hcon
        have hx := hcon.1
        rw [astCandidate, randomRange] at hx
        have : demoGame.ship.transform.position.x = 400 := rfl
        rw [this] at hx
        rw [show (0 : ℝ) + 0 * (CONFIG.screen.width - 0) = 0 by ring] at hx
        norm_num at hx)
    exact ⟨g2, hg2, by rw [hlev]; rfl, hst, by rw [hspec rfl]; rfl⟩

end Battleoids
